import Mathlib

set_option autoImplicit false

/-!
Shallow embedding of the resilient outbound HTTP client of
`apps/api-gateway/src/common/http-client/http-client.service.ts`:
option merging, the retry predicate and backoff delay installed into
axios-retry, the per-service circuit-breaker registry, and the
service-key derivation.
-/

namespace TodoGateway

/-- The HTTP methods offered by the client (`type HttpMethod` in the source). -/
inductive HttpMethod where
  | GET
  | POST
  | PUT
  | PATCH
  | DELETE
  deriving DecidableEq, Repr

/-- Model of the axios error object as consumed by the retry predicate: the
request method (`error.config.method`), the low-level error code
(`error.code`, absent for plain HTTP status rejections), and the response
status (`error.response.status`, absent when no response arrived). -/
structure AxiosErrorModel where
  method : HttpMethod
  code : Option String
  responseStatus : Option Nat
  deriving DecidableEq, Repr

/-- Error codes that the axios-retry dependency excludes from network-error
retry: cancelled requests and timed-out requests. -/
def networkErrorExcludedCodes : List String :=
  ["ERR_CANCELED", "ECONNABORTED"]

/-- Deny list of the is-retry-allowed package used by axios-retry: DNS
resolution failures, unreachable networks and TLS certificate errors are
never retried as network errors. -/
def retryDenyList : List String :=
  [ "ENOTFOUND", "ENETUNREACH"
  , "UNABLE_TO_GET_ISSUER_CERT", "UNABLE_TO_GET_CRL"
  , "UNABLE_TO_DECRYPT_CERT_SIGNATURE", "UNABLE_TO_DECRYPT_CRL_SIGNATURE"
  , "UNABLE_TO_DECODE_ISSUER_PUBLIC_KEY", "CERT_SIGNATURE_FAILURE"
  , "CRL_SIGNATURE_FAILURE", "CERT_NOT_YET_VALID", "CERT_HAS_EXPIRED"
  , "CRL_NOT_YET_VALID", "CRL_HAS_EXPIRED", "ERROR_IN_CERT_NOT_BEFORE_FIELD"
  , "ERROR_IN_CERT_NOT_AFTER_FIELD", "ERROR_IN_CRL_LAST_UPDATE_FIELD"
  , "ERROR_IN_CRL_NEXT_UPDATE_FIELD", "OUT_OF_MEM"
  , "DEPTH_ZERO_SELF_SIGNED_CERT", "SELF_SIGNED_CERT_IN_CHAIN"
  , "UNABLE_TO_GET_ISSUER_CERT_LOCALLY", "UNABLE_TO_VERIFY_LEAF_SIGNATURE"
  , "CERT_CHAIN_TOO_LONG", "CERT_REVOKED", "INVALID_CA"
  , "PATH_LENGTH_EXCEEDED", "INVALID_PURPOSE", "CERT_UNTRUSTED"
  , "CERT_REJECTED", "HOSTNAME_MISMATCH" ]

/-- is-retry-allowed: an error code is retriable unless it is on the deny
list (an absent code is vacuously allowed). -/
def isRetryAllowed (e : AxiosErrorModel) : Bool :=
  match e.code with
  | none => true
  | some c => !(retryDenyList.contains c)

/-- axios-retry isNetworkError: no response arrived, a code is present, the
code is not a cancel/abort code, and the code is retry-allowed. -/
def isNetworkError (e : AxiosErrorModel) : Bool :=
  e.responseStatus.isNone && e.code.isSome &&
    !(networkErrorExcludedCodes.contains (e.code.getD "")) &&
    isRetryAllowed e

/-- The idempotent HTTP methods recognized by axios-retry, restricted to the
methods this client issues (HEAD and OPTIONS are never issued here). -/
def idempotentHttpMethods : List HttpMethod :=
  [.GET, .PUT, .DELETE]

/-- axios-retry isRetryableError: not an aborted (timed-out) request, and
either no response arrived or the response status is a 5xx. -/
def isRetryableError (e : AxiosErrorModel) : Bool :=
  e.code != some "ECONNABORTED" &&
    (match e.responseStatus with
     | none => true
     | some s => decide (500 ≤ s) && decide (s ≤ 599))

/-- axios-retry isIdempotentRequestError: a retryable error on an
idempotent-method request. -/
def isIdempotentRequestError (e : AxiosErrorModel) : Bool :=
  isRetryableError e && idempotentHttpMethods.contains e.method

/-- axios-retry isNetworkOrIdempotentRequestError, the library predicate the
client delegates to first. -/
def isNetworkOrIdempotentRequestError (e : AxiosErrorModel) : Bool :=
  isNetworkError e || isIdempotentRequestError e

/-- The fixed retryable status set of `HttpClient.shouldRetry`. -/
def retryableStatuses : List Nat :=
  [429, 502, 503, 504]

/-- `HttpClient.shouldRetry`: true when
`axiosRetry.isNetworkOrIdempotentRequestError` accepts the error, or when
the response status is one of 429, 502, 503, 504; false otherwise. -/
def shouldRetry (e : AxiosErrorModel) : Bool :=
  if isNetworkOrIdempotentRequestError e then true
  else
    match e.responseStatus with
    | some s => retryableStatuses.contains s
    | none => false

/-- The `retryDelay` callback installed into axios-retry: exponential
backoff capped at `maxDelayMs`, plus a jitter term. `retryCount` is 1 for
the first retry (the second attempt overall); `jitter` models the sampled
value of `Math.floor(Math.random() * 100)`, an integer in `[0, 99]`. -/
def retryDelay (baseDelayMs maxDelayMs retryCount jitter : Nat) : Nat :=
  min maxDelayMs (baseDelayMs * 2 ^ (retryCount - 1)) + jitter

/-- The process environment as read by the client: one field per `HTTP_*`
variable, already converted by `Number(...)` where the source converts
(`HTTP_BREAKER_ENABLED` is compared as a raw string). An absent variable is
`none`. -/
structure EnvModel where
  HTTP_TIMEOUT_MS : Option Nat
  HTTP_RETRY_COUNT : Option Nat
  HTTP_RETRY_BASE_DELAY_MS : Option Nat
  HTTP_RETRY_MAX_DELAY_MS : Option Nat
  HTTP_BREAKER_ENABLED : Option String
  HTTP_BREAKER_TIMEOUT_MS : Option Nat
  HTTP_BREAKER_ERR_PCT : Option Nat
  HTTP_BREAKER_RESET_MS : Option Nat
  HTTP_BREAKER_ROLLING_MS : Option Nat
  HTTP_BREAKER_BUCKETS : Option Nat
  deriving DecidableEq, Repr

/-- The environment with every `HTTP_*` variable unset, under which the
hard-coded fallbacks of the source become the effective defaults. -/
def emptyEnv : EnvModel :=
  ⟨none, none, none, none, none, none, none, none, none, none⟩

/-- Caller-supplied retry options (`HttpClientOptions.retry`). -/
structure RetryOptions where
  retries : Option Nat
  baseDelayMs : Option Nat
  maxDelayMs : Option Nat
  deriving DecidableEq, Repr

/-- Caller-supplied breaker options (`HttpClientOptions.breaker`). -/
structure BreakerOptions where
  enabled : Option Bool
  timeoutMs : Option Nat
  errorThresholdPercentage : Option Nat
  resetTimeoutMs : Option Nat
  rollingCountTimeoutMs : Option Nat
  rollingCountBuckets : Option Nat
  deriving DecidableEq, Repr

/-- Caller-supplied options (`HttpClientOptions`): every level optional. -/
structure HttpClientOptions where
  timeoutMs : Option Nat
  retry : Option RetryOptions
  breaker : Option BreakerOptions
  deriving DecidableEq, Repr

/-- Fully populated retry configuration. -/
structure MergedRetry where
  retries : Nat
  baseDelayMs : Nat
  maxDelayMs : Nat
  deriving DecidableEq, Repr

/-- Fully populated breaker configuration. -/
structure MergedBreaker where
  enabled : Bool
  timeoutMs : Nat
  errorThresholdPercentage : Nat
  resetTimeoutMs : Nat
  rollingCountTimeoutMs : Nat
  rollingCountBuckets : Nat
  deriving DecidableEq, Repr

/-- `Required<HttpClientOptions>`: the effective configuration. -/
structure MergedOptions where
  timeoutMs : Nat
  retry : MergedRetry
  breaker : MergedBreaker
  deriving DecidableEq, Repr

/-- `HttpClient.mergeOptions`: field by field, the caller value when
present, else the environment variable, else the hard-coded fallback
(6000, 2, 250, 1500, "true", 3500, 50, 10000, 10000, 10). -/
def mergeOptions (env : EnvModel) (opts : Option HttpClientOptions) : MergedOptions :=
  { timeoutMs := (opts.bind (·.timeoutMs)).getD (env.HTTP_TIMEOUT_MS.getD 6000)
  , retry :=
    { retries :=
        ((opts.bind (·.retry)).bind (·.retries)).getD
          (env.HTTP_RETRY_COUNT.getD 2)
    , baseDelayMs :=
        ((opts.bind (·.retry)).bind (·.baseDelayMs)).getD
          (env.HTTP_RETRY_BASE_DELAY_MS.getD 250)
    , maxDelayMs :=
        ((opts.bind (·.retry)).bind (·.maxDelayMs)).getD
          (env.HTTP_RETRY_MAX_DELAY_MS.getD 1500) }
  , breaker :=
    { enabled :=
        ((opts.bind (·.breaker)).bind (·.enabled)).getD
          ((env.HTTP_BREAKER_ENABLED.getD "true") == "true")
    , timeoutMs :=
        ((opts.bind (·.breaker)).bind (·.timeoutMs)).getD
          (env.HTTP_BREAKER_TIMEOUT_MS.getD 3500)
    , errorThresholdPercentage :=
        ((opts.bind (·.breaker)).bind (·.errorThresholdPercentage)).getD
          (env.HTTP_BREAKER_ERR_PCT.getD 50)
    , resetTimeoutMs :=
        ((opts.bind (·.breaker)).bind (·.resetTimeoutMs)).getD
          (env.HTTP_BREAKER_RESET_MS.getD 10000)
    , rollingCountTimeoutMs :=
        ((opts.bind (·.breaker)).bind (·.rollingCountTimeoutMs)).getD
          (env.HTTP_BREAKER_ROLLING_MS.getD 10000)
    , rollingCountBuckets :=
        ((opts.bind (·.breaker)).bind (·.rollingCountBuckets)).getD
          (env.HTTP_BREAKER_BUCKETS.getD 10) } }

/-- `HttpResponse<T>` from the source: status, data, headers. -/
structure HttpResponse (α : Type) where
  status : Nat
  data : α
  headers : List (String × String)
  deriving DecidableEq, Repr

/-- `HttpClient.doAxios` on a successful exchange: axios resolves with a
response carrying status, data and headers, and doAxios repackages exactly
those three fields into an `HttpResponse`. -/
def doAxios {α : Type} (res : HttpResponse α) : HttpResponse α :=
  { status := res.status, data := res.data, headers := res.headers }

/-- The successful-path result of `HttpClient.request`: the breaker branch
resolves `breaker.fire` with the `doAxios` result and returns `res.data`;
the direct branch awaits `doAxios` and likewise returns `res.data`. -/
def requestResult {α : Type} (opts : MergedOptions) (res : HttpResponse α) : α :=
  if opts.breaker.enabled then (doAxios res).data else (doAxios res).data

/-- A circuit-breaker instance as constructed by `getOrCreateBreaker`: an
identity (its creation number) together with the opossum options it was
constructed with (`timeout`, `errorThresholdPercentage`, `resetTimeout`,
`rollingCountTimeout`, `rollingCountBuckets`). -/
structure Breaker where
  id : Nat
  timeout : Nat
  errorThresholdPercentage : Nat
  resetTimeout : Nat
  rollingCountTimeout : Nat
  rollingCountBuckets : Nat
  deriving DecidableEq, Repr

/-- The registry state of the client: `this.breakers` (an insertion-ordered
map from service key to breaker, as a JS `Map`) together with a counter of
breaker constructions, used as the fresh identity of the next breaker. -/
structure ClientState where
  breakers : List (String × Breaker)
  created : Nat
  deriving DecidableEq, Repr

/-- `this.breakers.get(serviceKey)`. -/
def ClientState.lookup (s : ClientState) (key : String) : Option Breaker :=
  (s.breakers.find? (fun p => p.1 == key)).map (·.2)

/-- `HttpClient.getOrCreateBreaker`: return the existing breaker for the
key when there is one; otherwise construct a breaker from the merged
breaker options, store it under the key, and return it. -/
def getOrCreateBreaker (s : ClientState) (key : String) (opts : MergedOptions) :
    Breaker × ClientState :=
  match s.lookup key with
  | some existing => (existing, s)
  | none =>
    let b : Breaker :=
      { id := s.created
      , timeout := opts.breaker.timeoutMs
      , errorThresholdPercentage := opts.breaker.errorThresholdPercentage
      , resetTimeout := opts.breaker.resetTimeoutMs
      , rollingCountTimeout := opts.breaker.rollingCountTimeoutMs
      , rollingCountBuckets := opts.breaker.rollingCountBuckets }
    (b, { breakers := s.breakers ++ [(key, b)], created := s.created + 1 })

/-- Characters that terminate the authority component of a URL. -/
def authorityEnders : List Char :=
  ['/', '?', '#']

/-- Split a character list at the first occurrence of "://": the scheme
characters before it and the remainder after it, or `none` when the
separator never occurs. -/
def splitScheme : List Char → Option (List Char × List Char)
  | [] => none
  | ':' :: '/' :: '/' :: rest => some ([], rest)
  | c :: rest => (splitScheme rest).map (fun p => (c :: p.1, p.2))

/-- Model of the WHATWG `new URL(url)` hostname, restricted to hierarchical
`scheme://[userinfo@]host[:port][/...]` URLs: the lowercased host part, or
`none` when construction throws (relative URLs, empty scheme or host; the
scheme check is simplified to all-alphabetic). -/
def parseHostname (url : String) : Option String :=
  match splitScheme url.data with
  | none => none
  | some (scheme, rest) =>
    if scheme.isEmpty then none
    else if !(scheme.all Char.isAlpha) then none
    else
      let authority := rest.takeWhile (fun c => !(authorityEnders.contains c))
      let hostPort := (authority.reverse.takeWhile (fun c => c != '@')).reverse
      let host := hostPort.takeWhile (fun c => c != ':')
      if host.isEmpty then none else some (String.mk (host.map Char.toLower))

/-- `HttpClient.deriveServiceKey`: the hostname of the URL, or "default"
when URL construction throws (e.g. for a relative URL). -/
def deriveServiceKey (url : String) : String :=
  (parseHostname url).getD "default"

/-- Outcome of one transport attempt: a resolved response, or an axios
error (network failure, timeout, or a status outside the accepted range). -/
inductive AttemptResult (α : Type) where
  | success (res : HttpResponse α)
  | failure (e : AxiosErrorModel)
  deriving DecidableEq, Repr

/-- The axios-retry control loop around one client call: `attempt` is the
1-indexed number of the attempt about to run, `fuel` the number of retries
still allowed. A successful attempt returns immediately; a failed attempt
is followed by another one exactly when fuel remains and `shouldRetry`
accepts the error. Returns the final attempt number with its outcome. -/
def retryLoop {α : Type} (transport : Nat → AttemptResult α) :
    Nat → Nat → Nat × AttemptResult α
  | attempt, 0 => (attempt, transport attempt)
  | attempt, f + 1 =>
    match transport attempt with
    | .success r => (attempt, .success r)
    | .failure e =>
      if shouldRetry e then retryLoop transport (attempt + 1) f
      else (attempt, .failure e)

/-- One full client call at the transport level: the first attempt is
number 1 and the retry budget is the merged `retry.retries`. -/
def runRequest {α : Type} (transport : Nat → AttemptResult α) (retries : Nat) :
    Nat × AttemptResult α :=
  retryLoop transport 1 retries

/-- The total attempt budget: the configured retries count additional
attempts beyond the first. -/
def maxAttempts (retries : Nat) : Nat :=
  retries + 1

/-- A transport that fails every attempt with the same error. -/
def constFailureTransport (e : AxiosErrorModel) : Nat → AttemptResult Unit :=
  fun _ => .failure e

/-- The error taxonomy of the specification (section 7). -/
inductive ErrorKind where
  | NetworkError
  | TimeoutError
  | BreakerOpenError
  | UpstreamStatusError
  deriving DecidableEq, Repr

/-- Modelled from the spec: the source surfaces the raw axios error, so the
spec taxonomy is applied to it — a failure that carries a response status is
an `UpstreamStatusError`, an aborted deadline is a `TimeoutError`, any other
transport failure a `NetworkError`. -/
def classifyFailure (e : AxiosErrorModel) : ErrorKind :=
  match e.responseStatus with
  | some _ => .UpstreamStatusError
  | none =>
    if e.code == some "ECONNABORTED" then .TimeoutError else .NetworkError

/-! ### Helper lemmas on the retry loop and the registry -/

/-- The final attempt number never exceeds the starting attempt number plus
the remaining retry fuel. -/
theorem retryLoop_fst_le {α : Type} (t : Nat → AttemptResult α) :
    ∀ (fuel attempt : Nat), (retryLoop t attempt fuel).1 ≤ attempt + fuel := by
  intro fuel
  induction fuel with
  | zero =>
    intro attempt
    simp [retryLoop]
  | succ f ih =>
    intro attempt
    cases h : t attempt with
    | success r => simp [retryLoop, h]
    | failure e =>
      by_cases hr : shouldRetry e = true
      · have := ih (attempt + 1)
        simp only [retryLoop, h, hr, if_true]
        omega
      · simp [retryLoop, h, hr]

/-- The final attempt number is at least the starting attempt number. -/
theorem retryLoop_fst_ge {α : Type} (t : Nat → AttemptResult α) :
    ∀ (fuel attempt : Nat), attempt ≤ (retryLoop t attempt fuel).1 := by
  intro fuel
  induction fuel with
  | zero =>
    intro attempt
    simp [retryLoop]
  | succ f ih =>
    intro attempt
    cases h : t attempt with
    | success r => simp [retryLoop, h]
    | failure e =>
      by_cases hr : shouldRetry e = true
      · have := ih (attempt + 1)
        simp only [retryLoop, h, hr, if_true]
        omega
      · simp [retryLoop, h, hr]

/-- The surfaced outcome is the transport outcome of the final attempt. -/
theorem retryLoop_snd_eq {α : Type} (t : Nat → AttemptResult α) :
    ∀ (fuel attempt : Nat), (retryLoop t attempt fuel).2 = t (retryLoop t attempt fuel).1 := by
  intro fuel
  induction fuel with
  | zero =>
    intro attempt
    simp [retryLoop]
  | succ f ih =>
    intro attempt
    cases h : t attempt with
    | success r => simp [retryLoop, h]
    | failure e =>
      by_cases hr : shouldRetry e = true
      · have := ih (attempt + 1)
        simp only [retryLoop, h, hr, if_true]
        exact this
      · simp [retryLoop, h, hr]

/-- Against a transport failing every attempt with a retryable error, the
loop burns its whole fuel and ends at `attempt + fuel`. -/
theorem retryLoop_const_failure (e : AxiosErrorModel) (he : shouldRetry e = true) :
    ∀ (fuel attempt : Nat),
      retryLoop (constFailureTransport e) attempt fuel = (attempt + fuel, .failure e) := by
  intro fuel
  induction fuel with
  | zero =>
    intro attempt
    simp [retryLoop, constFailureTransport]
  | succ f ih =>
    intro attempt
    have harith : attempt + 1 + f = attempt + (f + 1) := by omega
    simp only [retryLoop, constFailureTransport, he, if_true, ih (attempt + 1), harith]

/-- Against a transport failing every attempt with a non-retryable error,
the loop stops after the very first attempt. -/
theorem retryLoop_no_retry (e : AxiosErrorModel) (he : shouldRetry e = false)
    (fuel attempt : Nat) :
    retryLoop (constFailureTransport e) attempt fuel = (attempt, .failure e) := by
  cases fuel <;> simp [retryLoop, constFailureTransport, he]

/-- A `find?` over an appended list falls through to the second list when
the first one contains no hit. -/
theorem find?_append_of_none {α : Type} {p : α → Bool} {l1 : List α} (l2 : List α)
    (h : l1.find? p = none) : (l1 ++ l2).find? p = l2.find? p := by
  induction l1 with
  | nil => simp
  | cons a t ih =>
    rw [List.find?_eq_none] at h
    have ha : p a = false := by
      have := h a (by simp)
      simp_all
    have ht : t.find? p = none := by
      rw [List.find?_eq_none]
      intro x hx
      exact h x (by simp [hx])
    simp [List.find?_cons, ha, ih ht]

/-! ### The claims -/

/-- C2: for attempt number n ≥ 2 (retry number n - 1), the computed delay
is exactly min(maxDelay, baseDelay * 2 ^ (n - 2)) plus the sampled jitter
from [0, 100); in the scenario baseDelay = 100, maxDelay = 800 the first
two retry delays are 100 and 200 plus jitter. -/
theorem C2_theorem (n base maxD jitter : Nat) (hn : 2 ≤ n) (hbm : base ≤ maxD)
    (hj : jitter < 100) :
    retryDelay base maxD (n - 1) jitter = min maxD (base * 2 ^ (n - 2)) + jitter ∧
    retryDelay 100 800 (2 - 1) jitter = 100 + jitter ∧
    retryDelay 100 800 (3 - 1) jitter = 200 + jitter := by
  have h2 : n - 1 - 1 = n - 2 := by omega
  refine ⟨by simp [retryDelay, h2], by norm_num [retryDelay], by norm_num [retryDelay]⟩

/-- Witness for C2 at n = 2, base 100, max 800, jitter 7. -/
theorem C2_witness :
    retryDelay 100 800 (2 - 1) 7 = min 800 (100 * 2 ^ (2 - 2)) + 7 ∧
    retryDelay 100 800 (2 - 1) 7 = 100 + 7 ∧
    retryDelay 100 800 (3 - 1) 7 = 200 + 7 :=
  C2_theorem 2 100 800 7 (by decide) (by decide) (by decide)

/-- C3 fails as stated: the public API hands the caller only the `data`
field of the response, not the full triple — two successful responses that
differ in status and headers yield the same caller-visible result, so the
result value cannot carry status or headers. -/
theorem C3_counterexample :
    requestResult (mergeOptions emptyEnv none)
        { status := 201, data := 42, headers := [("etag", "abc")] } = 42 ∧
    requestResult (mergeOptions emptyEnv none)
        { status := 299, data := 42, headers := [] } = 42 ∧
    (201 : Nat) ≠ 299 := by
  refine ⟨by decide, by decide, by decide⟩

/-- C3 amended: on a successful call the caller receives exactly the data
field of the response; the full triple of status, data and headers is
produced internally by doAxios but unwrapped by request before returning. -/
theorem C3_theorem {α : Type} (opts : MergedOptions) (res : HttpResponse α) :
    requestResult opts res = res.data ∧
    doAxios res = { status := res.status, data := res.data, headers := res.headers } := by
  constructor <;> simp [requestResult, doAxios]

/-- C5: getOrCreateBreaker is idempotent per key — a second call with the
same key (under any options) returns the very breaker of the first call and
leaves the registry state untouched, and the two calls construct at most
one new breaker. -/
theorem C5_theorem (s : ClientState) (key : String) (o1 o2 : MergedOptions) :
    (getOrCreateBreaker (getOrCreateBreaker s key o1).2 key o2).1
        = (getOrCreateBreaker s key o1).1 ∧
    (getOrCreateBreaker (getOrCreateBreaker s key o1).2 key o2).2
        = (getOrCreateBreaker s key o1).2 ∧
    (getOrCreateBreaker s key o1).2.created ≤ s.created + 1 := by
  cases h : s.lookup key with
  | some b =>
    simp [getOrCreateBreaker, h]
  | none =>
    have hfind : s.breakers.find? (fun p => p.1 == key) = none := by
      simp only [ClientState.lookup] at h
      rwa [Option.map_eq_none'] at h
    have hlook :
        (ClientState.lookup
          { breakers := s.breakers ++ [(key,
              { id := s.created
              , timeout := o1.breaker.timeoutMs
              , errorThresholdPercentage := o1.breaker.errorThresholdPercentage
              , resetTimeout := o1.breaker.resetTimeoutMs
              , rollingCountTimeout := o1.breaker.rollingCountTimeoutMs
              , rollingCountBuckets := o1.breaker.rollingCountBuckets })]
          , created := s.created + 1 } key) = some
              { id := s.created
              , timeout := o1.breaker.timeoutMs
              , errorThresholdPercentage := o1.breaker.errorThresholdPercentage
              , resetTimeout := o1.breaker.resetTimeoutMs
              , rollingCountTimeout := o1.breaker.rollingCountTimeoutMs
              , rollingCountBuckets := o1.breaker.rollingCountBuckets } := by
      simp [ClientState.lookup, find?_append_of_none _ hfind, List.find?_cons]
    simp [getOrCreateBreaker, h, hlook]

/-- C9 fails as stated: because the jitter is resampled on every retry, the
realized delay can decrease between consecutive attempts — with baseDelay
10 ≤ maxDelay 1500, a jitter sample of 99 on attempt 2 and 0 on attempt 3
gives delays 109 then 20. -/
theorem C9_counterexample :
    (10 : Nat) ≤ 1500 ∧ (99 : Nat) < 100 ∧ (0 : Nat) < 100 ∧
    retryDelay 10 1500 (2 - 1) 99 = 109 ∧
    retryDelay 10 1500 (3 - 1) 0 = 20 ∧
    ¬((109 : Nat) ≤ 20) := by
  decide

/-- C9 amended: the exponential component of the delay is monotone
non-decreasing in the attempt number, so the realized delay is monotone
whenever the jitter sample does not decrease; and the realized delay never
exceeds maxDelay + 99, hence stays below maxDelay plus the jitter bound of
100. -/
theorem C9_theorem (base maxD rc rc2 j j2 : Nat) (hrc : rc ≤ rc2) (hj : j ≤ j2)
    (hjb : j2 < 100) :
    retryDelay base maxD rc j ≤ retryDelay base maxD rc2 j2 ∧
    retryDelay base maxD rc2 j2 ≤ maxD + 99 := by
  have hpow : base * 2 ^ (rc - 1) ≤ base * 2 ^ (rc2 - 1) :=
    Nat.mul_le_mul_left _ (Nat.pow_le_pow_right (by norm_num) (by omega))
  constructor
  · exact Nat.add_le_add (min_le_min (le_refl maxD) hpow) hj
  · exact Nat.add_le_add (min_le_left _ _) (by omega)

/-- Witness for C9 at base 100, max 800, retry numbers 1 ≤ 2, jitter 5 ≤ 7. -/
theorem C9_witness :
    retryDelay 100 800 1 5 ≤ retryDelay 100 800 2 7 ∧
    retryDelay 100 800 2 7 ≤ 800 + 99 :=
  C9_theorem 100 800 1 2 5 7 (by decide) (by decide) (by decide)

/-- C10: when the key already has a breaker, getOrCreateBreaker returns
that breaker and the unchanged state, for every options argument — so the
options of later calls have no effect on an existing breaker. -/
theorem C10_theorem (s : ClientState) (key : String) (b : Breaker)
    (o1 o2 : MergedOptions) (h : s.lookup key = some b) :
    getOrCreateBreaker s key o1 = (b, s) ∧
    getOrCreateBreaker s key o1 = getOrCreateBreaker s key o2 := by
  constructor <;> simp [getOrCreateBreaker, h]

/-- A demonstration breaker and registry state for the C10 witness. -/
def demoBreaker : Breaker :=
  { id := 0, timeout := 3500, errorThresholdPercentage := 50
  , resetTimeout := 10000, rollingCountTimeout := 10000, rollingCountBuckets := 10 }

/-- A registry state already holding a breaker for "catalog-service". -/
def demoState : ClientState :=
  { breakers := [("catalog-service", demoBreaker)], created := 1 }

/-- Witness for C10 on a registry with an existing "catalog-service"
breaker, exercised with two different option sets. -/
theorem C10_witness :
    getOrCreateBreaker demoState "catalog-service" (mergeOptions emptyEnv none)
        = (demoBreaker, demoState) ∧
    getOrCreateBreaker demoState "catalog-service" (mergeOptions emptyEnv none)
        = getOrCreateBreaker demoState "catalog-service"
            (mergeOptions emptyEnv (some { timeoutMs := some 1, retry := none, breaker := none })) :=
  C10_theorem demoState "catalog-service" demoBreaker (mergeOptions emptyEnv none)
    (mergeOptions emptyEnv (some { timeoutMs := some 1, retry := none, breaker := none }))
    (by decide)

/-- The retry predicate as the specification words it: retry exactly the
connectivity/timeout failures (no response arrived) and the responses whose
status lies in the fixed retryable set. -/
def specIsRetryable (e : AxiosErrorModel) : Bool :=
  e.responseStatus.isNone ||
    (match e.responseStatus with
     | some s => retryableStatuses.contains s
     | none => false)

/-- C1 fails as stated: a GET answered by a plain 500 response is retried
by shouldRetry (through the axios-retry idempotent-request rule) although
500 lies outside the fixed retryable set, and a timed-out attempt (code
ECONNABORTED, no response) is not retried although the claim calls every
connectivity/timeout failure retryable. -/
theorem C1_counterexample :
    shouldRetry { method := .GET, code := none, responseStatus := some 500 } = true ∧
    specIsRetryable { method := .GET, code := none, responseStatus := some 500 } = false ∧
    shouldRetry { method := .GET, code := some "ECONNABORTED", responseStatus := none } = false ∧
    specIsRetryable { method := .GET, code := some "ECONNABORTED", responseStatus := none } = true := by
  refine ⟨by decide, by decide, by decide, by decide⟩

/-- C1 amended: shouldRetry returns true exactly when (i) the failure is a
network error — no response, a code present that is neither a cancel/abort
code nor on the DNS/TLS deny list —, or (ii) the request method is
idempotent (GET, PUT or DELETE among the methods this client issues) and
the failure is not an aborted request and either no response arrived or the
status is a 5xx, or (iii) the response status is one of 429, 502, 503, 504.
In particular a 500 is retried exactly on idempotent methods, and a timeout
(ECONNABORTED) is never retried. -/
theorem C1_theorem (e : AxiosErrorModel) :
    shouldRetry e = true ↔
      (e.responseStatus = none ∧ ∃ c, e.code = some c ∧
          c ∉ networkErrorExcludedCodes ∧ c ∉ retryDenyList) ∨
      (e.method ∈ idempotentHttpMethods ∧ e.code ≠ some "ECONNABORTED" ∧
          (e.responseStatus = none ∨
            ∃ s, e.responseStatus = some s ∧ 500 ≤ s ∧ s ≤ 599)) ∨
      (∃ s, e.responseStatus = some s ∧ s ∈ retryableStatuses) := by
  obtain ⟨m, c, st⟩ := e
  cases st <;> cases c <;>
      simp [shouldRetry, isNetworkOrIdempotentRequestError, isNetworkError,
        isIdempotentRequestError, isRetryableError, isRetryAllowed, List.elem_iff] <;>
    tauto

/-- C4: the merge is total and field-directed — every field of the
effective configuration equals the caller-supplied value when present and
the stated process-wide default otherwise (6000, 2, 250, 1500, true, 3500,
50, 10000, 10000, 10), for every possibly partial or absent caller options
object. -/
theorem C4_theorem (opts : Option HttpClientOptions) :
    ((∀ v, opts.bind (·.timeoutMs) = some v →
        (mergeOptions emptyEnv opts).timeoutMs = v) ∧
      (opts.bind (·.timeoutMs) = none →
        (mergeOptions emptyEnv opts).timeoutMs = 6000)) ∧
    ((∀ v, (opts.bind (·.retry)).bind (·.retries) = some v →
        (mergeOptions emptyEnv opts).retry.retries = v) ∧
      ((opts.bind (·.retry)).bind (·.retries) = none →
        (mergeOptions emptyEnv opts).retry.retries = 2)) ∧
    ((∀ v, (opts.bind (·.retry)).bind (·.baseDelayMs) = some v →
        (mergeOptions emptyEnv opts).retry.baseDelayMs = v) ∧
      ((opts.bind (·.retry)).bind (·.baseDelayMs) = none →
        (mergeOptions emptyEnv opts).retry.baseDelayMs = 250)) ∧
    ((∀ v, (opts.bind (·.retry)).bind (·.maxDelayMs) = some v →
        (mergeOptions emptyEnv opts).retry.maxDelayMs = v) ∧
      ((opts.bind (·.retry)).bind (·.maxDelayMs) = none →
        (mergeOptions emptyEnv opts).retry.maxDelayMs = 1500)) ∧
    ((∀ v, (opts.bind (·.breaker)).bind (·.enabled) = some v →
        (mergeOptions emptyEnv opts).breaker.enabled = v) ∧
      ((opts.bind (·.breaker)).bind (·.enabled) = none →
        (mergeOptions emptyEnv opts).breaker.enabled = true)) ∧
    ((∀ v, (opts.bind (·.breaker)).bind (·.timeoutMs) = some v →
        (mergeOptions emptyEnv opts).breaker.timeoutMs = v) ∧
      ((opts.bind (·.breaker)).bind (·.timeoutMs) = none →
        (mergeOptions emptyEnv opts).breaker.timeoutMs = 3500)) ∧
    ((∀ v, (opts.bind (·.breaker)).bind (·.errorThresholdPercentage) = some v →
        (mergeOptions emptyEnv opts).breaker.errorThresholdPercentage = v) ∧
      ((opts.bind (·.breaker)).bind (·.errorThresholdPercentage) = none →
        (mergeOptions emptyEnv opts).breaker.errorThresholdPercentage = 50)) ∧
    ((∀ v, (opts.bind (·.breaker)).bind (·.resetTimeoutMs) = some v →
        (mergeOptions emptyEnv opts).breaker.resetTimeoutMs = v) ∧
      ((opts.bind (·.breaker)).bind (·.resetTimeoutMs) = none →
        (mergeOptions emptyEnv opts).breaker.resetTimeoutMs = 10000)) ∧
    ((∀ v, (opts.bind (·.breaker)).bind (·.rollingCountTimeoutMs) = some v →
        (mergeOptions emptyEnv opts).breaker.rollingCountTimeoutMs = v) ∧
      ((opts.bind (·.breaker)).bind (·.rollingCountTimeoutMs) = none →
        (mergeOptions emptyEnv opts).breaker.rollingCountTimeoutMs = 10000)) ∧
    ((∀ v, (opts.bind (·.breaker)).bind (·.rollingCountBuckets) = some v →
        (mergeOptions emptyEnv opts).breaker.rollingCountBuckets = v) ∧
      ((opts.bind (·.breaker)).bind (·.rollingCountBuckets) = none →
        (mergeOptions emptyEnv opts).breaker.rollingCountBuckets = 10)) := by
  refine ⟨⟨fun v h => ?_, fun h => ?_⟩, ⟨fun v h => ?_, fun h => ?_⟩,
      ⟨fun v h => ?_, fun h => ?_⟩, ⟨fun v h => ?_, fun h => ?_⟩,
      ⟨fun v h => ?_, fun h => ?_⟩, ⟨fun v h => ?_, fun h => ?_⟩,
      ⟨fun v h => ?_, fun h => ?_⟩, ⟨fun v h => ?_, fun h => ?_⟩,
      ⟨fun v h => ?_, fun h => ?_⟩, ⟨fun v h => ?_, fun h => ?_⟩⟩ <;>
    simp [mergeOptions, emptyEnv, h]

/-- Witness for C4 on a partially populated options object: explicit
timeout and retries, defaulted base delay, absent breaker block. -/
theorem C4_witness :
    (mergeOptions emptyEnv (some
        { timeoutMs := some 1234
        , retry := some { retries := some 5, baseDelayMs := none, maxDelayMs := none }
        , breaker := none })).timeoutMs = 1234 ∧
    (mergeOptions emptyEnv (some
        { timeoutMs := some 1234
        , retry := some { retries := some 5, baseDelayMs := none, maxDelayMs := none }
        , breaker := none })).retry.retries = 5 ∧
    (mergeOptions emptyEnv (some
        { timeoutMs := some 1234
        , retry := some { retries := some 5, baseDelayMs := none, maxDelayMs := none }
        , breaker := none })).retry.baseDelayMs = 250 ∧
    (mergeOptions emptyEnv (some
        { timeoutMs := some 1234
        , retry := some { retries := some 5, baseDelayMs := none, maxDelayMs := none }
        , breaker := none })).breaker.enabled = true ∧
    (mergeOptions emptyEnv (some
        { timeoutMs := some 1234
        , retry := some { retries := some 5, baseDelayMs := none, maxDelayMs := none }
        , breaker := none })).breaker.rollingCountBuckets = 10 :=
  ⟨(C4_theorem (some
        { timeoutMs := some 1234
        , retry := some { retries := some 5, baseDelayMs := none, maxDelayMs := none }
        , breaker := none })).1.1 1234 rfl,
   (C4_theorem (some
        { timeoutMs := some 1234
        , retry := some { retries := some 5, baseDelayMs := none, maxDelayMs := none }
        , breaker := none })).2.1.1 5 rfl,
   (C4_theorem (some
        { timeoutMs := some 1234
        , retry := some { retries := some 5, baseDelayMs := none, maxDelayMs := none }
        , breaker := none })).2.2.1.2 rfl,
   (C4_theorem (some
        { timeoutMs := some 1234
        , retry := some { retries := some 5, baseDelayMs := none, maxDelayMs := none }
        , breaker := none })).2.2.2.2.1.2 rfl,
   (C4_theorem (some
        { timeoutMs := some 1234
        , retry := some { retries := some 5, baseDelayMs := none, maxDelayMs := none }
        , breaker := none })).2.2.2.2.2.2.2.2.2.2 rfl⟩

/-- C6 fails as stated: the claim quantifies over every call, but a
non-idempotent call does not retry a 500 — with 2 configured retries
(maxAttempts = 3) and every attempt answered by a 500, a POST performs one
single transport attempt, not maxAttempts. -/
theorem C6_counterexample :
    (runRequest (constFailureTransport
        { method := .POST, code := none, responseStatus := some 500 }) 2).1 = 1 ∧
    maxAttempts 2 = 3 ∧ (1 : Nat) ≠ 3 := by
  refine ⟨by decide, by decide, by decide⟩

/-- C6 amended: with the breaker disabled and every attempt answered by a
plain 500, an idempotent-method call (GET) performs exactly maxAttempts
transport attempts and surfaces the last 500 failure, classified as an
upstream-status failure; a non-idempotent call (POST) performs exactly one
attempt because a 500 is not retryable for it. -/
theorem C6_theorem (retries : Nat) :
    (runRequest (constFailureTransport
        { method := .GET, code := none, responseStatus := some 500 }) retries).1
      = maxAttempts retries ∧
    (runRequest (constFailureTransport
        { method := .GET, code := none, responseStatus := some 500 }) retries).2
      = .failure { method := .GET, code := none, responseStatus := some 500 } ∧
    classifyFailure { method := .GET, code := none, responseStatus := some 500 }
      = .UpstreamStatusError ∧
    (runRequest (constFailureTransport
        { method := .POST, code := none, responseStatus := some 500 }) retries).1 = 1 := by
  have hg : shouldRetry { method := .GET, code := none, responseStatus := some 500 } = true := by
    decide
  have hp : shouldRetry { method := .POST, code := none, responseStatus := some 500 } = false := by
    decide
  refine ⟨?_, ?_, by decide, ?_⟩
  · rw [runRequest, retryLoop_const_failure _ hg retries 1]
    simp [maxAttempts]
    omega
  · rw [runRequest, retryLoop_const_failure _ hg retries 1]
  · rw [runRequest, retryLoop_no_retry _ hp retries 1]

/-- C7: the attempt budget retries + 1 is at least 1 for every
configuration; a call performs at least one and at most maxAttempts
transport attempts; and the surfaced terminal outcome is exactly the
outcome the transport produced on the final attempt. -/
theorem C7_theorem {α : Type} (t : Nat → AttemptResult α) (retries : Nat) :
    1 ≤ maxAttempts retries ∧
    1 ≤ (runRequest t retries).1 ∧
    (runRequest t retries).1 ≤ maxAttempts retries ∧
    (runRequest t retries).2 = t (runRequest t retries).1 := by
  refine ⟨by simp [maxAttempts], retryLoop_fst_ge t retries 1, ?_,
    retryLoop_snd_eq t retries 1⟩
  have hle := retryLoop_fst_le t retries 1
  simp only [runRequest, maxAttempts]
  omega

/-- C8: deriveServiceKey is a total deterministic function of the URL — a
URL whose hostname parses maps to that hostname, an unparseable URL maps to
"default", equal URLs map to equal keys, and URLs with distinct hostnames
map to distinct keys. -/
theorem C8_theorem (u v : String) :
    (∀ h, parseHostname u = some h → deriveServiceKey u = h) ∧
    (parseHostname u = none → deriveServiceKey u = "default") ∧
    (u = v → deriveServiceKey u = deriveServiceKey v) ∧
    (∀ h h2, parseHostname u = some h → parseHostname v = some h2 → h ≠ h2 →
      deriveServiceKey u ≠ deriveServiceKey v) := by
  refine ⟨fun h hu => ?_, fun hu => ?_, fun huv => by rw [huv],
    fun h h2 hu hv hne => ?_⟩
  · simp [deriveServiceKey, hu]
  · simp [deriveServiceKey, hu]
  · simp only [deriveServiceKey, hu, hv, Option.getD_some]
    exact hne

/-- Witness for C8 on two absolute service URLs and one relative URL. -/
theorem C8_witness :
    deriveServiceKey "http://catalog-service:3001/products" = "catalog-service" ∧
    deriveServiceKey "iam/users" = "default" ∧
    deriveServiceKey "http://catalog-service:3001/products"
      ≠ deriveServiceKey "http://order-service:3002/orders" := by
  have h1 := C8_theorem "http://catalog-service:3001/products"
    "http://order-service:3002/orders"
  have h2 := C8_theorem "iam/users" "iam/users"
  exact ⟨h1.1 "catalog-service" (by decide), h2.2.1 (by decide),
    h1.2.2.2 "catalog-service" "order-service" (by decide) (by decide) (by decide)⟩

end TodoGateway
